import Mathlib

/-!
Shallow embedding of the quiz assessment and grading subsystem of the
smartEduBackend repository (`app/routes/quiz.py` and
`app/routes/studentquiz.py`), together with theorems checking the
natural-language specification against it.

Conventions of the embedding:
* MongoDB ObjectIds become `Nat` identifiers drawn from a per-store counter.
* `datetime.utcnow()` becomes an explicit `now : Nat` parameter (seconds);
  `timedelta(hours=24)` is `86400`.
* JSON request payloads become structures whose fields are `Option`-valued:
  `none` models a missing key, mirroring Python's `data.get(...)` defaults.
* Route handlers become pure functions `input → now → Store → Except Err
  (Store × ...)`: a `.error` return models the HTTP error response, in which
  case no new store is produced (nothing is persisted).
* Python `float` arithmetic on percentages is modelled with exact rationals
  (`ℚ`); Python's `round(x, 2)` (round-half-to-even) becomes `round2`.
*Dynamic response dictionaries, where the presence or absence of a *key*
  matters (answer sanitization), are modelled as association lists `Doc`.
-/

/-- A JSON-ish value as stored in the document database and in responses. -/
inductive JVal where
  | s (v : String)
  | i (v : Int)
  | r (v : ℚ)
  | b (v : Bool)
  | sl (v : List String)
  | null
  deriving Repr, DecidableEq

/-- A dynamic JSON object: an association list from keys to values.
Models the Python dicts shaped by the routes. -/
abbrev Doc : Type := List (String × JVal)

/-- Key lookup in a dynamic object (`d[k]` / `k in d`). -/
def Doc.get? (d : Doc) (k : String) : Option JVal :=
  (List.find? (fun p => p.1 == k) d).map (fun p => p.2)

/-- Key removal, `d.pop(k, None)` on a Python dict (keys are unique there,
so removing every pair with the key coincides with removing the entry). -/
def Doc.pop (d : Doc) (k : String) : Doc :=
  List.filter (fun p => p.1 != k) d

/-- The `q['id'] = str(q['_id']); del q['_id']` conversion applied when an
`_id` key is present. -/
def Doc.renameIdKey (d : Doc) : Doc :=
  match d.get? "_id" with
  | some v => d.pop "_id" ++ [("id", v)]
  | none => d

/-- Python's `str.strip()`: drop whitespace from both ends. Defined by
structural recursion on the character list so that concrete runs are
kernel-evaluable (Lean's own `String.trim` is well-founded recursion,
which the kernel cannot unfold). -/
def pyStrip (s : String) : String :=
  String.mk
    (((s.data.dropWhile Char.isWhitespace).reverse.dropWhile
        Char.isWhitespace).reverse)

/-- Python's `str.lower()` (ASCII case folding, which is all the grading
comparisons rely on). -/
def pyLower (s : String) : String :=
  String.mk (s.data.map Char.toLower)

/-- A question document in the `question_bank` collection, as inserted by
`add_to_question_bank` in `app/routes/quiz.py`. -/
structure QuestionDoc where
  question_text : String
  question_type : String
  subject : String
  topic : String
  correct_answer : String
  explanation : String
  points : Int
  difficulty : String
  time_estimate : Int
  tags : List String
  created_by : String
  is_reusable : Bool
  options : Option (List String)
  created_at : Nat
  updated_at : Nat
  deriving Repr, DecidableEq

/-- An embedded question snapshot inside a quiz document, as built by
`create_quiz` (either copied from the question bank or taken inline). -/
structure QuizQuestion where
  question_bank_id : Option Nat
  question_text : String
  question_type : String
  options : Option (List String)
  correct_answer : String
  explanation : String
  points : Int
  difficulty : String
  subject : String
  topic : String
  time_estimate : Int
  tags : List String
  order_index : Nat
  deriving Repr, DecidableEq

/-- A quiz document in the `quizzes` collection. `class_`, `school_id` and
`teacher_name` are never written by `create_quiz` but are read (with
defaults) by the student-side routes, so they are `Option`-valued. -/
structure QuizDoc where
  title : String
  subject : String
  description : String
  teacher_id : String
  time_limit : Int
  status : String
  total_points : Int
  questions : List QuizQuestion
  created_at : Nat
  updated_at : Nat
  published_at : Option Nat := none
  class_ : Option String := none
  school_id : Option String := none
  teacher_name : Option String := none
  deriving Repr, DecidableEq

/-- A submitted answer element of the `answers` array:
`{question_id, answer}`. -/
structure AnswerInput where
  question_id : String
  answer : String
  deriving Repr, DecidableEq

/-- A per-question grading entry of a result's `question_results` list. -/
structure ResultQuestion where
  question_id : String
  question_text : String
  question_type : String
  student_answer : String
  correct_answer : String
  is_correct : Bool
  points : Int
  score : Int
  explanation : String
  deriving Repr, DecidableEq

/-- A result document in the `quiz_results` collection. The two submit
routes store slightly different extra fields; route-specific extras are
`Option`-valued (`none` models an absent key). -/
structure ResultDoc where
  quiz_id : Nat
  quiz_title : String
  quiz_subject : String
  student_id : String
  student_email : String
  student_name : String
  total_questions : Nat
  correct_answers : Nat
  total_score : Int
  max_score : Int
  percentage : ℚ
  grade : String
  question_results : List ResultQuestion
  submitted_at : Nat
  time_taken : Int
  attempt_number : Option Int := none
  is_retake : Option Bool := none
  answers : Option (List AnswerInput) := none
  school_id : Option String := none
  student_class : Option String := none
  deriving Repr, DecidableEq

/-- An in-progress attempt document in the `quiz_attempts` collection,
written by `save_quiz_attempt`. -/
structure AttemptDoc where
  quiz_id : Nat
  student_id : String
  student_email : String
  student_name : String
  answers : List AnswerInput
  current_question : Int
  time_spent : Int
  is_submitted : Bool
  created_at : Nat
  updated_at : Nat
  expires_at : Nat
  deriving Repr, DecidableEq

/-- The document store: the four collections used by the quiz subsystem,
each a list of (ObjectId, document) pairs in insertion order, plus the
id counter standing in for ObjectId generation. -/
structure Store where
  question_bank : List (Nat × QuestionDoc) := []
  quizzes : List (Nat × QuizDoc) := []
  quiz_results : List (Nat × ResultDoc) := []
  quiz_attempts : List (Nat × AttemptDoc) := []
  nextId : Nat := 0
  deriving Repr, DecidableEq

/-- Error responses of the routes, tagged by HTTP status class. -/
inductive Err where
  | badRequest (msg : String)
  | notFound (msg : String)
  | conflict (msg : String)
  | forbidden (msg : String)
  | serverError (msg : String)
  deriving Repr, DecidableEq

/-- The empty store. -/
def store0 : Store := {}

/-! ## Question bank: `add_to_question_bank` (`app/routes/quiz.py`) -/

/-- The JSON payload of `POST /question-bank`. `none` models an absent key.
The route's `get_current_user_id()` returns a fixed dummy id in the source;
it is passed as the `user_id` parameter of the operations so statements can
range over any caller. -/
structure QuestionInput where
  question_text : Option String := none
  question_type : Option String := none
  subject : Option String := none
  topic : Option String := none
  correct_answer : Option String := none
  points : Option Int := none
  explanation : Option String := none
  difficulty : Option String := none
  time_estimate : Option Int := none
  tags : Option (List String) := none
  options : Option (List String) := none
  deriving Repr, DecidableEq

/-- `validate_required_fields` on one field: missing key, or a string that
is blank after stripping. -/
def strMissing (o : Option String) : Bool :=
  match o with
  | none => true
  | some s => pyStrip s == ""

/-- `validate_required_fields(data, ['question_text', 'question_type',
'subject', 'topic', 'correct_answer', 'points'])`; `points` is non-string,
so only key presence is checked for it. -/
def missingQuestionFields (d : QuestionInput) : List String :=
  (if strMissing d.question_text then ["question_text"] else [])
    ++ (if strMissing d.question_type then ["question_type"] else [])
    ++ (if strMissing d.subject then ["subject"] else [])
    ++ (if strMissing d.topic then ["topic"] else [])
    ++ (if strMissing d.correct_answer then ["correct_answer"] else [])
    ++ (if d.points.isNone then ["points"] else [])

/-- The duplicate lookup
`db.question_bank.find_one({'question_text': data['question_text'].strip(),
'subject': data['subject'], 'created_by': user_id})`. -/
def questionDuplicate (st : Store) (user_id : String) (d : QuestionInput) :
    Option (Nat × QuestionDoc) :=
  st.question_bank.find? (fun p =>
    p.2.question_text == pyStrip (d.question_text.getD "")
      && p.2.subject == d.subject.getD ""
      && p.2.created_by == user_id)

/-- The `question_doc` dict built by `add_to_question_bank` before the
options handling. -/
def mkQuestionDoc (user_id : String) (d : QuestionInput) (now : Nat) :
    QuestionDoc :=
  { question_text := pyStrip (d.question_text.getD "")
    question_type := d.question_type.getD ""
    subject := d.subject.getD ""
    topic := pyStrip (d.topic.getD "")
    correct_answer := d.correct_answer.getD ""
    explanation := pyStrip (d.explanation.getD "")
    points := d.points.getD 0
    difficulty := d.difficulty.getD "medium"
    time_estimate := d.time_estimate.getD 2
    tags := d.tags.getD []
    created_by := user_id
    is_reusable := true
    options := none
    created_at := now
    updated_at := now }

/-- `POST /question-bank` (`add_to_question_bank`): required-field
validation, duplicate rejection, the multiple-choice options check, then
insertion. Returns the new id and stored document. -/
def addQuestion (user_id : String) (d : QuestionInput) (now : Nat)
    (st : Store) : Except Err (Store × Nat × QuestionDoc) :=
  match missingQuestionFields d with
  | f :: fs =>
    .error (.badRequest ("Missing required fields: "
      ++ String.intercalate ", " (f :: fs)))
  | [] =>
    match questionDuplicate st user_id d with
    | some _ =>
      .error (.conflict "This question already exists in your question bank")
    | none =>
      let doc : QuestionDoc := mkQuestionDoc user_id d now
      if d.question_type.getD "" == "multiple_choice" then
        match d.options with
        | some opts =>
          if opts.length < 2 then
            .error (.badRequest
              "Multiple choice questions require at least 2 options")
          else
            let doc := { doc with options := some opts }
            .ok ({ st with
                    question_bank := st.question_bank ++ [(st.nextId, doc)]
                    nextId := st.nextId + 1 },
                 st.nextId, doc)
        | none =>
          .error (.badRequest
            "Multiple choice questions require at least 2 options")
      else
        .ok ({ st with
                question_bank := st.question_bank ++ [(st.nextId, doc)]
                nextId := st.nextId + 1 },
             st.nextId, doc)

/-! ## Quiz composer: `create_quiz`, `publish_quiz` (`app/routes/quiz.py`) -/

/-- One element of the `questions` array of the `POST /quizzes` payload:
either a question-bank reference or an inline ad-hoc question. -/
structure QuizQuestionInput where
  question_bank_id : Option Nat := none
  question_text : Option String := none
  question_type : Option String := none
  correct_answer : Option String := none
  explanation : Option String := none
  points : Option Int := none
  difficulty : Option String := none
  topic : Option String := none
  time_estimate : Option Int := none
  tags : Option (List String) := none
  options : Option (List String) := none
  deriving Repr, DecidableEq

/-- The JSON payload of `POST /quizzes`. -/
structure QuizInput where
  title : Option String := none
  subject : Option String := none
  questions : Option (List QuizQuestionInput) := none
  description : Option String := none
  time_limit : Option Int := none
  status : Option String := none
  deriving Repr, DecidableEq

/-- `validate_required_fields(data, ['title', 'subject', 'questions'])`;
`questions` is a list, so only key presence is checked for it. -/
def missingQuizFields (d : QuizInput) : List String :=
  (if strMissing d.title then ["title"] else [])
    ++ (if strMissing d.subject then ["subject"] else [])
    ++ (if d.questions.isNone then ["questions"] else [])

/-- Builds one embedded question for index `idx` (1-based, from
`enumerate(data['questions'], 1)`). Returns `none` for the `continue`
branch (referenced bank question not found). An inline question whose
mandatory keys are missing raises `KeyError` in the source, caught by the
route's handler as a 500 response; that is the `.error (.serverError ...)`
case. -/
def buildQuizQuestion (st : Store) (user_id subj : String)
    (qd : QuizQuestionInput) (idx : Nat) :
    Except Err (Option QuizQuestion) :=
  match qd.question_bank_id with
  | some bid =>
    match st.question_bank.find? (fun p =>
        p.1 == bid && p.2.created_by == user_id) with
    | none => .ok none
    | some (_, qb) =>
      .ok (some
        { question_bank_id := some bid
          question_text := qb.question_text
          question_type := qb.question_type
          options := qb.options
          correct_answer := qb.correct_answer
          explanation := qb.explanation
          points := qb.points
          difficulty := qb.difficulty
          subject := qb.subject
          topic := qb.topic
          time_estimate := qb.time_estimate
          tags := qb.tags
          order_index := idx })
  | none =>
    match qd.question_text, qd.question_type, qd.correct_answer, qd.points with
    | some qtext, some qtype, some corr, some pts =>
      .ok (some
        { question_bank_id := none
          question_text := pyStrip qtext
          question_type := qtype
          options := if qtype == "multiple_choice" then qd.options else none
          correct_answer := corr
          explanation := pyStrip (qd.explanation.getD "")
          points := pts
          difficulty := qd.difficulty.getD "medium"
          subject := subj
          topic := pyStrip (qd.topic.getD "General")
          time_estimate := qd.time_estimate.getD 2
          tags := qd.tags.getD []
          order_index := idx })
    | _, _, _, _ => .error (.serverError "Failed to create quiz")

/-- The quiz-building loop of `create_quiz`: accumulates the embedded
questions and the running `total_points` sum exactly as the source's
`for index, question_data in enumerate(data['questions'], 1)` loop does. -/
def buildQuizQuestions (st : Store) (user_id subj : String) :
    List QuizQuestionInput → Nat → Except Err (List QuizQuestion × Int)
  | [], _ => .ok ([], 0)
  | qd :: rest, idx =>
    match buildQuizQuestion st user_id subj qd idx with
    | .error e => .error e
    | .ok none => buildQuizQuestions st user_id subj rest (idx + 1)
    | .ok (some q) =>
      match buildQuizQuestions st user_id subj rest (idx + 1) with
      | .error e => .error e
      | .ok (qs, tp) => .ok (q :: qs, q.points + tp)

/-- `POST /quizzes` (`create_quiz`): required-field validation, duplicate
title rejection, bank-reference ownership check, question assembly, then
insertion. Returns the new id and stored quiz document. -/
def createQuiz (user_id : String) (d : QuizInput) (now : Nat) (st : Store) :
    Except Err (Store × Nat × QuizDoc) :=
  match missingQuizFields d with
  | f :: fs =>
    .error (.badRequest ("Missing required fields: "
      ++ String.intercalate ", " (f :: fs)))
  | [] =>
    if (st.quizzes.find? (fun p =>
          p.2.title == pyStrip (d.title.getD "")
            && p.2.teacher_id == user_id)).isSome then
      .error (.conflict "A quiz with this title already exists")
    else
      let inputs := d.questions.getD []
      let bankIds := inputs.filterMap (fun q => q.question_bank_id)
      let owned := (st.question_bank.filter (fun p =>
        bankIds.contains p.1 && p.2.created_by == user_id)).length
      if bankIds ≠ [] && owned ≠ bankIds.length then
        .error (.badRequest "One or more questions not found or unauthorized")
      else
        match buildQuizQuestions st user_id (d.subject.getD "") inputs 1 with
        | .error e => .error e
        | .ok (questions, total_points) =>
          let doc : QuizDoc :=
            { title := pyStrip (d.title.getD "")
              subject := d.subject.getD ""
              description := pyStrip (d.description.getD "")
              teacher_id := user_id
              time_limit := d.time_limit.getD 60
              status := d.status.getD "draft"
              total_points := total_points
              questions := questions
              created_at := now
              updated_at := now }
          .ok ({ st with
                  quizzes := st.quizzes ++ [(st.nextId, doc)]
                  nextId := st.nextId + 1 },
               st.nextId, doc)

/-- `update_one` semantics: rewrite the first list entry matching the
filter. -/
def updateFirst {α : Type} (p : α → Bool) (f : α → α) : List α → List α
  | [] => []
  | x :: xs => if p x then f x :: xs else x :: updateFirst p f xs

/-- `PUT /quiz/publish/<quiz_id>` (`publish_quiz`): sets
`status = 'published'` on the quiz matching id and owner, else 404. -/
def publishQuiz (user_id : String) (qid : Nat) (now : Nat) (st : Store) :
    Except Err Store :=
  if (st.quizzes.find? (fun p =>
        p.1 == qid && p.2.teacher_id == user_id)).isNone then
    .error (.notFound "Quiz not found or unauthorized")
  else
    .ok { st with
          quizzes := updateFirst
            (fun p => p.1 == qid && p.2.teacher_id == user_id)
            (fun p => (p.1, { p.2 with
              status := "published"
              published_at := some now
              updated_at := now }))
            st.quizzes }

/-- `PUT /quiz/unpublish/<quiz_id>` (`unpublish_quiz`). -/
def unpublishQuiz (user_id : String) (qid : Nat) (now : Nat) (st : Store) :
    Except Err Store :=
  if (st.quizzes.find? (fun p =>
        p.1 == qid && p.2.teacher_id == user_id)).isNone then
    .error (.notFound "Quiz not found or unauthorized")
  else
    .ok { st with
          quizzes := updateFirst
            (fun p => p.1 == qid && p.2.teacher_id == user_id)
            (fun p => (p.1, { p.2 with status := "draft", updated_at := now }))
            st.quizzes }

/-! ## Grading engine: `submit_quiz` (`app/routes/quiz.py`) -/

/-- The correctness test of `submit_quiz` for a found answer: the source
first strips the submitted answer (`student_response =
student_answer.get('answer', '').strip()`), then dispatches on the
question type. -/
def checkAnswerQuiz (qtype submitted correct : String) : Bool :=
  let student_response := pyStrip submitted
  if qtype == "multiple_choice" then
    student_response == correct
  else if qtype == "true_false" then
    pyLower student_response == pyLower correct
  else
    pyLower (pyStrip student_response) == pyLower (pyStrip correct)

/-- `percentage = (total_score / max_score * 100) if max_score > 0 else 0`,
with Python float arithmetic modelled exactly over `ℚ`. -/
def percentageOf (total_score max_score : Int) : ℚ :=
  if max_score > 0 then (total_score : ℚ) / (max_score : ℚ) * 100 else 0

/-- The letter-grade banding chain shared by both submit routes. -/
def gradeOf (p : ℚ) : String :=
  if p ≥ 90 then "A"
  else if p ≥ 80 then "B"
  else if p ≥ 70 then "C"
  else if p ≥ 60 then "D"
  else "F"

/-- Python's `round` to an integer: round half to even, here on an exact
rational. -/
def pyRound (q : ℚ) : ℤ :=
  let f := ⌊q⌋
  let r := q - (f : ℚ)
  if r < 1/2 then f
  else if r > 1/2 then f + 1
  else if Even f then f else f + 1

/-- `round(percentage, 2)`. -/
def round2 (q : ℚ) : ℚ := (pyRound (q * 100) : ℚ) / 100

/-- One iteration of the grading loop of `submit_quiz`: embedded questions
carry no `_id`, so `str(question.get('_id', '')) or str(i)` is the 0-based
index `i` rendered as a string; the submitted answer is looked up by
`next(...)` (first match); a missing answer grades as incorrect. -/
def gradeQuestionQuiz (answers : List AnswerInput) (i : Nat)
    (q : QuizQuestion) : ResultQuestion :=
  let question_id := toString i
  let student_answer := answers.find? (fun a => a.question_id == question_id)
  let is_correct :=
    match student_answer with
    | none => false
    | some sa => checkAnswerQuiz q.question_type sa.answer q.correct_answer
  let question_score := if is_correct then q.points else 0
  { question_id := question_id
    question_text := q.question_text
    question_type := q.question_type
    student_answer := (student_answer.map (fun a => a.answer)).getD ""
    correct_answer := q.correct_answer
    is_correct := is_correct
    points := q.points
    score := question_score
    explanation := q.explanation }

/-- The JSON payload of `POST /student/quiz/submit` in
`app/routes/quiz.py`. -/
structure SubmitInput where
  quiz_id : Option Nat := none
  student_id : Option String := none
  student_email : Option String := none
  answers : Option (List AnswerInput) := none
  student_name : Option String := none
  time_taken : Option Int := none
  attempt_number : Option Int := none
  deriving Repr, DecidableEq

/-- `validate_required_fields(data, ['quiz_id', 'student_id',
'student_email', 'answers'])`; `quiz_id` is modelled as an already-parsed
id, so presence alone is checked for it and for the `answers` list. -/
def missingSubmitFields (d : SubmitInput) : List String :=
  (if d.quiz_id.isNone then ["quiz_id"] else [])
    ++ (if strMissing d.student_id then ["student_id"] else [])
    ++ (if strMissing d.student_email then ["student_email"] else [])
    ++ (if d.answers.isNone then ["answers"] else [])

/-- `db.quizzes.find_one({'_id': ObjectId(quiz_id), 'status':
'published'})`. -/
def findPublishedQuiz (st : Store) (qid : Nat) : Option QuizDoc :=
  (st.quizzes.find? (fun p => p.1 == qid && p.2.status == "published")).map
    (fun p => p.2)

/-- The scoring and result assembly of `submit_quiz` once the published
quiz is loaded. -/
def gradeSubmissionQuiz (d : SubmitInput) (now : Nat) (quiz : QuizDoc) :
    ResultDoc :=
  let answers := d.answers.getD []
  let question_results :=
    (quiz.questions.enum.map (fun p => gradeQuestionQuiz answers p.1 p.2))
  let total_score := (question_results.map (fun r => r.score)).sum
  let correct_answers := question_results.countP (fun r => r.is_correct)
  let max_score := quiz.total_points
  let percentage := percentageOf total_score max_score
  { quiz_id := d.quiz_id.getD 0
    quiz_title := quiz.title
    quiz_subject := quiz.subject
    student_id := d.student_id.getD ""
    student_email := d.student_email.getD ""
    student_name := d.student_name.getD ""
    total_questions := quiz.questions.length
    correct_answers := correct_answers
    total_score := total_score
    max_score := max_score
    percentage := round2 percentage
    grade := gradeOf percentage
    question_results := question_results
    submitted_at := now
    time_taken := d.time_taken.getD 0
    attempt_number := some (d.attempt_number.getD 1)
    is_retake := if d.attempt_number.getD 1 > 1 then some true else none }

/-- `POST /student/quiz/submit` (`submit_quiz` in `app/routes/quiz.py`):
fails 404 unless the quiz exists with status `published`, grades the
answers against the stored questions, and inserts a result document. -/
def submitQuiz (d : SubmitInput) (now : Nat) (st : Store) :
    Except Err (Store × Nat × ResultDoc) :=
  match missingSubmitFields d with
  | f :: fs =>
    .error (.badRequest ("Missing required fields: "
      ++ String.intercalate ", " (f :: fs)))
  | [] =>
    match findPublishedQuiz st (d.quiz_id.getD 0) with
    | none => .error (.notFound "Quiz not found or not available")
    | some quiz =>
      let r := gradeSubmissionQuiz d now quiz
      .ok ({ st with
              quiz_results := st.quiz_results ++ [(st.nextId, r)]
              nextId := st.nextId + 1 },
           st.nextId, r)

/-! ## Grading engine: `submit_quiz_attempt` (`app/routes/studentquiz.py`) -/

/-- Modelled from the spec: the deterministic stable question id is derived
in the source with `hashlib.md5(f"{question_text}_{i}_{quiz_id}".encode())
.hexdigest()[:12]` — a Python standard-library call outside this
repository's sources. Only its determinism matters to the claims (no claim
constrains the digest value), so the digest is modelled as a pure 48-bit
fold over the input rendered as 12 hex characters. -/
def md5hex12 (s : String) : String :=
  let h := s.toList.foldl
    (fun (h : Nat) (c : Char) => ((h ^^^ c.toNat) * 1099511628211) % (2 ^ 48))
    14695981039346656037
  let digits := Nat.toDigits 16 h
  String.mk (List.replicate (12 - digits.length) '0' ++ digits.take 12)

/-- The stable question id used by `submit_quiz_attempt` (and by
`get_quiz_for_attempt`) for embedded questions, which carry no `_id`:
`f"q_{hash}"` over `f"{question_text}_{i}_{quiz_id}"` with `i` the 0-based
position. -/
def stableQuestionId (question_text : String) (i : Nat) (quiz_id : Nat) :
    String :=
  "q_" ++ md5hex12 (question_text ++ "_" ++ toString i ++ "_"
    ++ toString quiz_id)

/-- `student_answers_dict` built by insertion with overwrite, then
`.get(question_id, '')`: the LAST answer with a given question id wins. -/
def answersDictGet (answers : List AnswerInput) (qid : String) : String :=
  match answers.reverse.find? (fun a => a.question_id == qid) with
  | some a => a.answer
  | none => ""

/-- The correctness test of `submit_quiz_attempt`: for every question type,
`str(student_answer).strip() == str(correct_answer).strip()`. -/
def checkAnswerStudent (submitted correct : String) : Bool :=
  pyStrip submitted == pyStrip correct

/-- One iteration of the grading loop of `submit_quiz_attempt`. -/
def gradeQuestionStudent (answers : List AnswerInput) (quiz_id : Nat)
    (i : Nat) (q : QuizQuestion) : ResultQuestion :=
  let question_id := stableQuestionId q.question_text i quiz_id
  let student_answer := answersDictGet answers question_id
  let is_correct := checkAnswerStudent student_answer q.correct_answer
  let score := if is_correct then q.points else 0
  { question_id := question_id
    question_text := q.question_text
    question_type := q.question_type
    student_answer := student_answer
    correct_answer := q.correct_answer
    is_correct := is_correct
    points := q.points
    score := score
    explanation := q.explanation }

/-- The JSON payload of `POST /student/quiz/submit` in
`app/routes/studentquiz.py`. -/
structure SubmitAttemptInput where
  quiz_id : Option Nat := none
  student_email : Option String := none
  answers : Option (List AnswerInput) := none
  student_id : Option String := none
  student_name : Option String := none
  time_taken : Option Int := none
  school_id : Option String := none
  student_class : Option String := none
  deriving Repr, DecidableEq

/-- The route's own required-field loop checks key presence only
(`if field not in data`). -/
def missingSubmitAttemptFields (d : SubmitAttemptInput) : List String :=
  (if d.quiz_id.isNone then ["quiz_id"] else [])
    ++ (if d.student_email.isNone then ["student_email"] else [])
    ++ (if d.answers.isNone then ["answers"] else [])

/-- `db.quizzes.find_one({'_id': ObjectId(data['quiz_id'])})` — note: no
status filter. -/
def findQuizById (st : Store) (qid : Nat) : Option QuizDoc :=
  (st.quizzes.find? (fun p => p.1 == qid)).map (fun p => p.2)

/-- The scoring and result assembly of `submit_quiz_attempt` once the quiz
is loaded. -/
def gradeSubmissionStudent (d : SubmitAttemptInput) (now : Nat)
    (quiz : QuizDoc) : ResultDoc :=
  let answers := d.answers.getD []
  let quiz_id := d.quiz_id.getD 0
  let question_results :=
    (quiz.questions.enum.map
      (fun p => gradeQuestionStudent answers quiz_id p.1 p.2))
  let total_score := (question_results.map (fun r => r.score)).sum
  let correct_answers := question_results.countP (fun r => r.is_correct)
  let max_score := quiz.total_points
  let percentage := percentageOf total_score max_score
  { quiz_id := quiz_id
    quiz_title := quiz.title
    quiz_subject := quiz.subject
    student_id := d.student_id.getD ""
    student_email := d.student_email.getD ""
    student_name := d.student_name.getD ""
    total_questions := quiz.questions.length
    correct_answers := correct_answers
    total_score := total_score
    max_score := max_score
    percentage := round2 percentage
    grade := gradeOf percentage
    question_results := question_results
    submitted_at := now
    time_taken := d.time_taken.getD 0
    answers := some answers
    school_id := some (d.school_id.getD "")
    student_class := some (d.student_class.getD "") }

/-- `POST /student/quiz/submit` (`submit_quiz_attempt` in
`app/routes/studentquiz.py`): fails 404 only when the quiz id matches no
document — a quiz in any status, including `draft`, is graded — and
inserts a result document. -/
def submitQuizAttempt (d : SubmitAttemptInput) (now : Nat) (st : Store) :
    Except Err (Store × Nat × ResultDoc) :=
  match missingSubmitAttemptFields d with
  | f :: _ => .error (.badRequest ("Missing required field: " ++ f))
  | [] =>
    match findQuizById st (d.quiz_id.getD 0) with
    | none => .error (.notFound "Quiz not found")
    | some quiz =>
      let r := gradeSubmissionStudent d now quiz
      .ok ({ st with
              quiz_results := st.quiz_results ++ [(st.nextId, r)]
              nextId := st.nextId + 1 },
           st.nextId, r)

/-! ## Attempt tracker: `save_quiz_attempt` (`app/routes/quiz.py`) -/

/-- The JSON payload of `POST /student/quiz/attempt`. -/
structure SaveAttemptInput where
  quiz_id : Option Nat := none
  student_id : Option String := none
  student_email : Option String := none
  answers : Option (List AnswerInput) := none
  student_name : Option String := none
  current_question : Option Int := none
  time_spent : Option Int := none
  deriving Repr, DecidableEq

/-- `validate_required_fields(data, ['quiz_id', 'student_id',
'student_email', 'answers'])`. -/
def missingSaveAttemptFields (d : SaveAttemptInput) : List String :=
  (if d.quiz_id.isNone then ["quiz_id"] else [])
    ++ (if strMissing d.student_id then ["student_id"] else [])
    ++ (if strMissing d.student_email then ["student_email"] else [])
    ++ (if d.answers.isNone then ["answers"] else [])

/-- `db.quiz_attempts.find_one({'quiz_id': ..., 'student_id': ...,
'is_submitted': False, 'expires_at': {'$gt': datetime.utcnow()}})`. -/
def findActiveAttempt (st : Store) (qid : Nat) (sid : String) (now : Nat) :
    Option (Nat × AttemptDoc) :=
  st.quiz_attempts.find? (fun p =>
    p.2.quiz_id == qid && p.2.student_id == sid
      && p.2.is_submitted == false && now < p.2.expires_at)

/-- `POST /student/quiz/attempt` (`save_quiz_attempt`): overwrites the
answers, current question index, time spent and update timestamp of an
existing unsubmitted, unexpired attempt for (quiz, student) — leaving
`created_at` and `expires_at` untouched — or inserts a fresh attempt whose
expiry is `now + 24h`. Returns the attempt id and whether an existing
attempt was updated. `mkAttemptDoc` is the `attempt_doc` dict the route
builds up front. -/
def mkAttemptDoc (d : SaveAttemptInput) (now : Nat) : AttemptDoc :=
  { quiz_id := d.quiz_id.getD 0
    student_id := d.student_id.getD ""
    student_email := d.student_email.getD ""
    student_name := d.student_name.getD ""
    answers := d.answers.getD []
    current_question := d.current_question.getD 0
    time_spent := d.time_spent.getD 0
    is_submitted := false
    created_at := now
    updated_at := now
    expires_at := now + 86400 }

def saveQuizAttempt (d : SaveAttemptInput) (now : Nat) (st : Store) :
    Except Err (Store × Nat × Bool) :=
  match missingSaveAttemptFields d with
  | f :: fs =>
    .error (.badRequest ("Missing required fields: "
      ++ String.intercalate ", " (f :: fs)))
  | [] =>
    let qid := d.quiz_id.getD 0
    let sid := d.student_id.getD ""
    let attempt_doc : AttemptDoc := mkAttemptDoc d now
    match findActiveAttempt st qid sid now with
    | some (aid, _) =>
      .ok ({ st with
              quiz_attempts := updateFirst (fun p => p.1 == aid)
                (fun p => (p.1, { p.2 with
                  answers := d.answers.getD []
                  current_question := d.current_question.getD 0
                  time_spent := d.time_spent.getD 0
                  updated_at := now }))
                st.quiz_attempts },
           aid, true)
    | none =>
      .ok ({ st with
              quiz_attempts := st.quiz_attempts ++ [(st.nextId, attempt_doc)]
              nextId := st.nextId + 1 },
           st.nextId, false)

/-! ## Student-facing quiz views (sanitization) -/

/-- The embedded-question dict as stored in MongoDB by `create_quiz` (the
keys it writes; `question_bank_id` only on the bank path, `options` when a
value is attached — a bank snapshot of a question without options stores an
explicit null, which carries the same key set for sanitization purposes). -/
def serializeQuizQuestion (q : QuizQuestion) : Doc :=
  (match q.question_bank_id with
   | some b => [("question_bank_id", JVal.s (toString b))]
   | none => [])
  ++ [("question_text", JVal.s q.question_text),
      ("question_type", JVal.s q.question_type)]
  ++ (match q.options with
      | some l => [("options", JVal.sl l)]
      | none => [])
  ++ [("correct_answer", JVal.s q.correct_answer),
      ("explanation", JVal.s q.explanation),
      ("points", JVal.i q.points),
      ("difficulty", JVal.s q.difficulty),
      ("subject", JVal.s q.subject),
      ("topic", JVal.s q.topic),
      ("time_estimate", JVal.i q.time_estimate),
      ("tags", JVal.sl q.tags),
      ("order_index", JVal.i q.order_index)]

/-- The per-question sanitization loop shared by `get_student_quizzes` and
`get_student_quiz` in `app/routes/quiz.py`: the `_id`→`id` rename followed
by `q.pop('correct_answer', None); q.pop('explanation', None)`. -/
def sanitizeQuestionDoc (d : Doc) : Doc :=
  ((d.renameIdKey).pop "correct_answer").pop "explanation"

/-- The question objects of one quiz as returned by the student-facing
routes of `app/routes/quiz.py`. -/
def studentQuestionDocsQuizPy (qz : QuizDoc) : List Doc :=
  qz.questions.map (fun q => sanitizeQuestionDoc (serializeQuizQuestion q))

/-- All question objects returned by `GET /student/quizzes`
(`get_student_quizzes` in `app/routes/quiz.py`). The route's optional
`search`/`subject` clauses of the Mongo query are abstracted as the
predicate `f` (they only restrict which published quizzes are listed);
the mandatory `status: 'published'` clause is explicit. -/
def studentListingDocsQuizPy (st : Store) (f : QuizDoc → Bool) : List Doc :=
  ((st.quizzes.filter (fun p => p.2.status == "published" && f p.2)).map
    (fun p => studentQuestionDocsQuizPy p.2)).flatten

/-- The question objects returned by `GET /student/quiz/<quiz_id>`
(`get_student_quiz` in `app/routes/quiz.py`), empty when the id does not
match a published quiz (404). -/
def studentSingleQuizDocsQuizPy (st : Store) (qid : Nat) : List Doc :=
  match findPublishedQuiz st qid with
  | none => []
  | some qz => studentQuestionDocsQuizPy qz

/-- The question object built by `get_student_quizzes` in
`app/routes/studentquiz.py`: a fresh dict holding only whitelisted keys
(`options` added for choice types). `fresh` stands for
`str(q.get('_id', ObjectId()))`, whose random fallback id is irrelevant to
the claims. -/
def studentQuestionDocSQ (fresh : String) (q : QuizQuestion) : Doc :=
  [("id", JVal.s fresh),
   ("question_text", JVal.s q.question_text),
   ("question_type", JVal.s q.question_type),
   ("points", JVal.i q.points),
   ("difficulty", JVal.s q.difficulty),
   ("time_estimate", JVal.i q.time_estimate),
   ("order_index", JVal.i q.order_index)]
  ++ (if q.question_type == "multiple_choice"
        || q.question_type == "true_false" then
        [("options", JVal.sl (q.options.getD []))]
      else [])

/-- The `order_index` sort key used by
`quiz_data['questions'].sort(key=lambda x: x.get('order_index', 0))`. -/
def docOrderIndex (d : Doc) : Int :=
  match d.get? "order_index" with
  | some (JVal.i n) => n
  | _ => 0

/-- All question objects returned by `GET /student/quizzes`
(`get_student_quizzes` in `app/routes/studentquiz.py`). The school/class
clauses of its Mongo query are abstracted as the predicate `f`; `g`
supplies the fresh fallback ids; each quiz's questions are sorted by
`order_index`. -/
def studentListingDocsSQ (st : Store) (f : QuizDoc → Bool) (g : Nat → String) :
    List Doc :=
  ((st.quizzes.filter (fun p => p.2.status == "published" && f p.2)).map
    (fun p =>
      ((p.2.questions.enum.map
        (fun iq => studentQuestionDocSQ (g iq.1) iq.2)).mergeSort
          (fun a b => docOrderIndex a ≤ docOrderIndex b)))).flatten

/-- The union of the student-facing question objects of the three routes
named by the sanitization contract. -/
def studentFacingQuestionDocs (st : Store) (f fsq : QuizDoc → Bool)
    (g : Nat → String) (qid : Nat) : List Doc :=
  studentListingDocsQuizPy st f
    ++ studentSingleQuizDocsQuizPy st qid
    ++ studentListingDocsSQ st fsq g

/-! ## Specification-side definitions (for refinement comparisons) -/

/-- Written from the spec's words for C2: multiple_choice graded by exact
string equality of the submitted answer with the stored correct answer;
true_false case-insensitively; short_answer/numerical by trimmed,
case-insensitive equality. -/
def gradingSpecC2 (qtype submitted correct : String) : Bool :=
  if qtype == "multiple_choice" then
    submitted == correct
  else if qtype == "true_false" then
    pyLower submitted == pyLower correct
  else
    pyLower (pyStrip submitted) == pyLower (pyStrip correct)

/-- Written from the spec's words for C4:
`percentage = total_score / max_score × 100` when `max_score > 0`, else 0. -/
def percentageSpec (total_score max_score : Int) : ℚ :=
  if max_score > 0 then (total_score : ℚ) / (max_score : ℚ) * 100 else 0

/-- Written from the spec's words for C4: letter grade from inclusive
lower bands [90,∞) → A, [80,90) → B, [70,80) → C, [60,70) → D, else F. -/
def gradeBandSpec (p : ℚ) : String :=
  if 90 ≤ p then "A"
  else if 80 ≤ p ∧ p < 90 then "B"
  else if 70 ≤ p ∧ p < 80 then "C"
  else if 60 ≤ p ∧ p < 70 then "D"
  else "F"

/-! ## Lookup and counting helpers used by the theorems -/

/-- Lookup of an attempt document by its id. -/
def findAttemptById (st : Store) (aid : Nat) : Option AttemptDoc :=
  (st.quiz_attempts.find? (fun p => p.1 == aid)).map (fun p => p.2)

/-- The number of stored bank questions with a given prompt, subject and
creator — the multiplicity behind the duplicate-prevention invariant. -/
def countQuestions (st : Store) (user_id text subj : String) : Nat :=
  (st.question_bank.filter (fun p =>
    p.2.question_text == text && p.2.subject == subj
      && p.2.created_by == user_id)).length

/-- The status of a stored quiz, by id. -/
def quizStatusById (st : Store) (qid : Nat) : Option String :=
  (st.quizzes.find? (fun p => p.1 == qid)).map (fun p => p.2.status)

/-! ## Concrete fixtures for counterexamples and witnesses -/

/-- A default result document, used only to give total extractors a
fallback value. -/
def rdefault : ResultDoc :=
  { quiz_id := 0, quiz_title := "", quiz_subject := "", student_id := ""
    student_email := "", student_name := "", total_questions := 0
    correct_answers := 0, total_score := 0, max_score := 0, percentage := 0
    grade := "", question_results := [], submitted_at := 0, time_taken := 0 }

/-- A published quiz with one multiple-choice question whose stored
correct answer is `"4"`. -/
def mcQuiz : QuizDoc :=
  { title := "Arithmetic", subject := "Math", description := ""
    teacher_id := "t1", time_limit := 60, status := "published"
    total_points := 1
    questions := [
      { question_bank_id := none, question_text := "2+2?"
        question_type := "multiple_choice", options := some ["3", "4", "5"]
        correct_answer := "4", explanation := "basic addition", points := 1
        difficulty := "easy", subject := "Math", topic := "General"
        time_estimate := 2, tags := [], order_index := 1 }]
    created_at := 0, updated_at := 0 }

/-- A store holding only `mcQuiz` under id 0. -/
def mcStore : Store := { quizzes := [(0, mcQuiz)], nextId := 1 }

/-- A submission whose answer for question `"0"` is `" 4"` — equal to the
stored correct answer only after trimming. -/
def c2inp : SubmitInput :=
  { quiz_id := some 0, student_id := some "s1"
    student_email := some "s1@school.test"
    answers := some [{ question_id := "0", answer := " 4" }] }

/-- The run of `submit_quiz` on that submission. -/
def c2out : Store × Nat × ResultDoc :=
  match submitQuiz c2inp 5 mcStore with
  | .ok v => v
  | .error _ => (store0, 0, rdefault)

/-- `mcQuiz` stored as a draft instead. -/
def draftQuiz : QuizDoc := { mcQuiz with status := "draft" }

/-- A store holding only the draft quiz under id 0. -/
def draftStore : Store := { quizzes := [(0, draftQuiz)], nextId := 1 }

/-- A submission against the draft quiz via the `studentquiz.py` route. -/
def c3inp : SubmitAttemptInput :=
  { quiz_id := some 0, student_email := some "s1@school.test"
    answers := some [] }

/-- The run of `submit_quiz_attempt` against the draft quiz. -/
def c3out : Store × Nat × ResultDoc :=
  match submitQuizAttempt c3inp 5 draftStore with
  | .ok v => v
  | .error _ => (store0, 0, rdefault)

/-- A `create_quiz` payload that asks for `status: 'published'` directly. -/
def c5inp : QuizInput :=
  { title := some "Sneaky", subject := some "Math", questions := some []
    status := some "published" }

/-- The run of `create_quiz` on that payload. -/
def c5out : Store × Nat × QuizDoc :=
  match createQuiz "t1" c5inp 0 store0 with
  | .ok v => v
  | .error _ => (store0, 0, draftQuiz)

/-- A `create_quiz` payload with an inline multiple-choice question that
has a single option. -/
def c6inp : QuizInput :=
  { title := some "OneOption", subject := some "Math"
    questions := some [
      { question_text := some "Pick one", question_type :=
          some "multiple_choice", correct_answer := some "only"
        points := some 3, options := some ["only"] }] }

/-- The run of `create_quiz` on the single-option payload. -/
def c6out : Store × Nat × QuizDoc :=
  match createQuiz "t1" c6inp 0 store0 with
  | .ok v => v
  | .error _ => (store0, 0, draftQuiz)

/-- A complete, valid `add_question` payload. -/
def c8inp : QuestionInput :=
  { question_text := some "What is an atom?", question_type :=
      some "short_answer", subject := some "Science", topic := some "Matter"
    correct_answer := some "smallest unit", points := some 2 }

/-- The run of the first `add_question` call on the empty store. -/
def c8out : Store × Nat × QuestionDoc :=
  match addQuestion "t1" c8inp 0 store0 with
  | .ok v => v
  | .error _ => (store0, 0,
      { question_text := "", question_type := "", subject := "", topic := ""
        correct_answer := "", explanation := "", points := 0
        difficulty := "", time_estimate := 0, tags := [], created_by := ""
        is_reusable := true, options := none, created_at := 0
        updated_at := 0 })

/-- A `save_progress` payload. -/
def c9inp : SaveAttemptInput :=
  { quiz_id := some 0, student_id := some "s1"
    student_email := some "s1@school.test"
    answers := some [{ question_id := "0", answer := "4" }]
    current_question := some 1, time_spent := some 30 }

/-- A published quiz whose two questions are worth 89999 and 10001 points,
so answering only the first correctly scores 89999 of 100000. -/
def c10quiz : QuizDoc :=
  { title := "Big", subject := "Math", description := ""
    teacher_id := "t1", time_limit := 60, status := "published"
    total_points := 100000
    questions := [
      { question_bank_id := none, question_text := "Q1"
        question_type := "short_answer", options := none
        correct_answer := "a", explanation := "", points := 89999
        difficulty := "easy", subject := "Math", topic := "General"
        time_estimate := 2, tags := [], order_index := 1 },
      { question_bank_id := none, question_text := "Q2"
        question_type := "short_answer", options := none
        correct_answer := "b", explanation := "", points := 10001
        difficulty := "easy", subject := "Math", topic := "General"
        time_estimate := 2, tags := [], order_index := 2 }]
    created_at := 0, updated_at := 0 }

/-- A store holding only `c10quiz` under id 0. -/
def c10store : Store := { quizzes := [(0, c10quiz)], nextId := 1 }

/-- A submission answering only the first question correctly. -/
def c10inp : SubmitInput :=
  { quiz_id := some 0, student_id := some "s1"
    student_email := some "s1@school.test"
    answers := some [{ question_id := "0", answer := "a" }] }

/-- The run of `submit_quiz` scoring 89999 of 100000. -/
def c10out : Store × Nat × ResultDoc :=
  match submitQuiz c10inp 7 c10store with
  | .ok v => v
  | .error _ => (store0, 0, rdefault)

/-- A published quiz whose two questions are worth 69999 and 30001 points,
so answering only the first correctly scores 69999 of 100000 (raw
percentage 69.999). -/
def c4quiz : QuizDoc :=
  { title := "Borderline", subject := "Math", description := ""
    teacher_id := "t1", time_limit := 60, status := "published"
    total_points := 100000
    questions := [
      { question_bank_id := none, question_text := "Q1"
        question_type := "short_answer", options := none
        correct_answer := "a", explanation := "", points := 69999
        difficulty := "easy", subject := "Math", topic := "General"
        time_estimate := 2, tags := [], order_index := 1 },
      { question_bank_id := none, question_text := "Q2"
        question_type := "short_answer", options := none
        correct_answer := "b", explanation := "", points := 30001
        difficulty := "easy", subject := "Math", topic := "General"
        time_estimate := 2, tags := [], order_index := 2 }]
    created_at := 0, updated_at := 0 }

/-- A store holding only `c4quiz` under id 0. -/
def c4store : Store := { quizzes := [(0, c4quiz)], nextId := 1 }

/-- A submission answering only the first question of `c4quiz` correctly. -/
def c4inp : SubmitInput :=
  { quiz_id := some 0, student_id := some "s1"
    student_email := some "s1@school.test"
    answers := some [{ question_id := "0", answer := "a" }] }

/-- The run of `submit_quiz` scoring 69999 of 100000. -/
def c4out : Store × Nat × ResultDoc :=
  match submitQuiz c4inp 3 c4store with
  | .ok v => v
  | .error _ => (store0, 0, rdefault)

/-- A complete multiple-choice `add_question` payload with two options. -/
def c6winp : QuestionInput :=
  { question_text := some "Pick a letter", question_type :=
      some "multiple_choice", subject := some "Math", topic := some "Letters"
    correct_answer := some "a", points := some 1
    options := some ["a", "b"] }

/-- The first question object of the combined student-facing views over
`mcStore`. -/
def c1doc : Doc :=
  (studentFacingQuestionDocs mcStore (fun _ => true) (fun _ => true)
    (fun _ => "x") 0).headD []

/-! ## Helper lemmas -/

theorem Doc.get?_pop (d : Doc) (k : String) : (d.pop k).get? k = none := by
  induction d with
  | nil => rfl
  | cons hd tl ih =>
    simp only [Doc.pop, Doc.get?, List.filter_cons] at *
    by_cases h : hd.1 = k
    · simp [h, ih]
    · simp only [bne_iff_ne, ne_eq, h, not_false_eq_true, if_pos,
        List.find?_cons]
      have : (hd.1 == k) = false := by simp [h]
      simp [this, ih]

theorem Doc.get?_pop_of_none {d : Doc} {a : String} (b : String)
    (h : d.get? a = none) : (d.pop b).get? a = none := by
  unfold Doc.get? Doc.pop at *
  rw [Option.map_eq_none'] at h ⊢
  rw [List.find?_eq_none] at h ⊢
  intro x hx
  exact h x (List.mem_of_mem_filter hx)

theorem sanitized_no_answers (d : Doc) :
    (sanitizeQuestionDoc d).get? "correct_answer" = none ∧
      (sanitizeQuestionDoc d).get? "explanation" = none := by
  unfold sanitizeQuestionDoc
  exact ⟨Doc.get?_pop_of_none _ (Doc.get?_pop _ _), Doc.get?_pop _ _⟩

theorem studentQuestionDocSQ_no_answers (fresh : String) (q : QuizQuestion) :
    (studentQuestionDocSQ fresh q).get? "correct_answer" = none ∧
      (studentQuestionDocSQ fresh q).get? "explanation" = none := by
  unfold studentQuestionDocSQ Doc.get?
  by_cases h : (q.question_type == "multiple_choice"
      || q.question_type == "true_false") = true
  · rw [if_pos h]; constructor <;> rfl
  · rw [if_neg h]; constructor <;> rfl

theorem submitQuiz_ok {d : SubmitInput} {now : Nat} {st st' : Store}
    {rid : Nat} {r : ResultDoc}
    (h : submitQuiz d now st = .ok (st', rid, r)) :
    ∃ quiz, findPublishedQuiz st (d.quiz_id.getD 0) = some quiz ∧
      r = gradeSubmissionQuiz d now quiz ∧
      st'.quiz_results = st.quiz_results ++ [(st.nextId, r)] := by
  unfold submitQuiz at h
  split at h
  · exact absurd h (by simp)
  · split at h
    · exact absurd h (by simp)
    · rename_i quiz hfind
      refine ⟨quiz, hfind, ?_⟩
      injection h with h1
      obtain ⟨h2, h3⟩ := Prod.mk.injEq .. |>.mp h1
      obtain ⟨h4, h5⟩ := Prod.mk.injEq .. |>.mp h3
      subst h5
      constructor
      · rfl
      · rw [← h2]

theorem addQuestion_ok {u : String} {i : QuestionInput} {now : Nat}
    {st st' : Store} {qid : Nat} {q : QuestionDoc}
    (h : addQuestion u i now st = .ok (st', qid, q)) :
    missingQuestionFields i = [] ∧ questionDuplicate st u i = none ∧
      q.question_text = pyStrip (i.question_text.getD "") ∧
      q.subject = i.subject.getD "" ∧ q.created_by = u ∧
      st'.question_bank = st.question_bank ++ [(st.nextId, q)] := by
  unfold addQuestion at h
  split at h
  · exact absurd h (by simp)
  · rename_i hm
    split at h
    · exact absurd h (by simp)
    · rename_i hdup
      refine ⟨hm, hdup, ?_⟩
      split at h
      · split at h
        · split at h
          · exact absurd h (by simp)
          · injection h with h1
            obtain ⟨h2, h3⟩ := Prod.mk.injEq .. |>.mp h1
            obtain ⟨h4, h5⟩ := Prod.mk.injEq .. |>.mp h3
            subst h5
            refine ⟨rfl, rfl, rfl, ?_⟩
            rw [← h2]
        · exact absurd h (by simp)
      · injection h with h1
        obtain ⟨h2, h3⟩ := Prod.mk.injEq .. |>.mp h1
        obtain ⟨h4, h5⟩ := Prod.mk.injEq .. |>.mp h3
        subst h5
        refine ⟨rfl, rfl, rfl, ?_⟩
        rw [← h2]

theorem createQuiz_ok {u : String} {d : QuizInput} {now : Nat}
    {st st' : Store} {qid : Nat} {qz : QuizDoc}
    (h : createQuiz u d now st = .ok (st', qid, qz)) :
    ∃ qs tp,
      buildQuizQuestions st u (d.subject.getD "") (d.questions.getD []) 1
        = .ok (qs, tp) ∧
      qz = { title := pyStrip (d.title.getD "")
             subject := d.subject.getD ""
             description := pyStrip (d.description.getD "")
             teacher_id := u
             time_limit := d.time_limit.getD 60
             status := d.status.getD "draft"
             total_points := tp
             questions := qs
             created_at := now
             updated_at := now } ∧
      st'.quizzes = st.quizzes ++ [(st.nextId, qz)] := by
  unfold createQuiz at h
  split at h
  · exact absurd h (by simp)
  · split at h
    · exact absurd h (by simp)
    · simp only [] at h
      split at h
      · exact absurd h (by simp)
      · split at h
        · exact absurd h (by simp)
        · rename_i qs tp hbuild
          refine ⟨qs, tp, hbuild, ?_⟩
          injection h with h1
          obtain ⟨h2, h3⟩ := Prod.mk.injEq .. |>.mp h1
          obtain ⟨h4, h5⟩ := Prod.mk.injEq .. |>.mp h3
          subst h5
          exact ⟨rfl, by rw [← h2]⟩

theorem buildQuizQuestions_sum (st : Store) (u s : String) :
    ∀ (l : List QuizQuestionInput) (i : Nat) (qs : List QuizQuestion)
      (tp : Int),
      buildQuizQuestions st u s l i = .ok (qs, tp) →
        tp = (qs.map (fun q => q.points)).sum := by
  intro l
  induction l with
  | nil =>
    intro i qs tp h
    unfold buildQuizQuestions at h
    injection h with h1
    obtain ⟨h2, h3⟩ := Prod.mk.injEq .. |>.mp h1
    subst h3
    rw [← h2]
    rfl
  | cons hd tl ih =>
    intro i qs tp h
    unfold buildQuizQuestions at h
    split at h
    · exact absurd h (by simp)
    · exact ih _ _ _ h
    · rename_i q hq
      split at h
      · exact absurd h (by simp)
      · rename_i qs' tp' hrec
        injection h with h1
        obtain ⟨h2, h3⟩ := Prod.mk.injEq .. |>.mp h1
        subst h2 h3
        have := ih _ _ _ hrec
        simp [this]

theorem updateFirst_length {α : Type} (p : α → Bool) (f : α → α)
    (l : List α) : (updateFirst p f l).length = l.length := by
  induction l with
  | nil => rfl
  | cons x xs ih =>
    unfold updateFirst
    by_cases h : p x
    · simp [h]
    · simp [h, ih]

theorem find?_updateFirst {α : Type} (p : α → Bool) (f : α → α)
    (hp : ∀ a, p (f a) = p a) (l : List α) :
    (updateFirst p f l).find? p = (l.find? p).map f := by
  induction l with
  | nil => rfl
  | cons x xs ih =>
    unfold updateFirst
    by_cases h : p x
    · rw [if_pos h]
      rw [List.find?_cons_of_pos _ ((hp x).trans h),
          List.find?_cons_of_pos _ h]
      rfl
    · rw [if_neg h]
      rw [List.find?_cons_of_neg _ h, List.find?_cons_of_neg _ h, ih]

theorem attemptsUpdateFind (aid : Nat) (d : SaveAttemptInput) (now : Nat)
    (l : List (Nat × AttemptDoc)) :
    (updateFirst (fun p => p.1 == aid)
        (fun p => (p.1, { p.2 with
          answers := d.answers.getD []
          current_question := d.current_question.getD 0
          time_spent := d.time_spent.getD 0
          updated_at := now })) l).find? (fun p => p.1 == aid)
      = (l.find? (fun p => p.1 == aid)).map
          (fun p => (p.1, { p.2 with
            answers := d.answers.getD []
            current_question := d.current_question.getD 0
            time_spent := d.time_spent.getD 0
            updated_at := now })) :=
  find?_updateFirst (fun p => p.1 == aid)
    (fun p => (p.1, { p.2 with
      answers := d.answers.getD []
      current_question := d.current_question.getD 0
      time_spent := d.time_spent.getD 0
      updated_at := now })) (fun _ => rfl) l

theorem gradeOf_eq_bandSpec (p : ℚ) : gradeOf p = gradeBandSpec p := by
  rcases le_or_lt 90 p with h90 | h90
  · simp [gradeOf, gradeBandSpec, h90]
  · rcases le_or_lt 80 p with h80 | h80
    · simp [gradeOf, gradeBandSpec, h90.not_le, h80, h90]
    · rcases le_or_lt 70 p with h70 | h70
      · simp [gradeOf, gradeBandSpec, h90.not_le, h80.not_le, h70, h80]
      · rcases le_or_lt 60 p with h60 | h60
        · simp [gradeOf, gradeBandSpec, h90.not_le, h80.not_le, h70.not_le,
            h60, h70]
        · simp [gradeOf, gradeBandSpec, h90.not_le, h80.not_le, h70.not_le,
            h60.not_le]

theorem round2_up (p : ℚ) (h1 : 89995/1000 ≤ p) (h2 : p < 90) :
    round2 p = 90 := by
  have hf : ⌊p * 100⌋ = 8999 := by
    rw [Int.floor_eq_iff]
    constructor
    · push_cast
      linarith
    · push_cast
      linarith
  unfold round2 pyRound
  rw [hf]
  simp only
  split_ifs with ha hb hc
  · exfalso
    push_cast at ha
    linarith
  · push_cast
    norm_num
  · exact absurd hc (by decide)
  · push_cast
    norm_num

/-! ## Claim theorems -/

/-- Claim C1: every student-facing quiz response — the student quiz
listings of both route files and the single-quiz fetch for an attempt —
contains, for every question object it returns, no `correct_answer` key
and no `explanation` key, for every store, query filter and quiz. -/
theorem c1_student_views_sanitized (st : Store) (f fsq : QuizDoc → Bool)
    (g : Nat → String) (qid : Nat) (d : Doc)
    (hd : d ∈ studentFacingQuestionDocs st f fsq g qid) :
    d.get? "correct_answer" = none ∧ d.get? "explanation" = none := by
  unfold studentFacingQuestionDocs at hd
  rcases List.mem_append.mp hd with h | h
  · rcases List.mem_append.mp h with h1 | h1
    · simp only [studentListingDocsQuizPy, List.mem_flatten] at h1
      obtain ⟨l, hl, hdl⟩ := h1
      rw [List.mem_map] at hl
      obtain ⟨p, hp, rfl⟩ := hl
      unfold studentQuestionDocsQuizPy at hdl
      rw [List.mem_map] at hdl
      obtain ⟨q, hq, rfl⟩ := hdl
      exact sanitized_no_answers _
    · unfold studentSingleQuizDocsQuizPy at h1
      cases hfind : findPublishedQuiz st qid with
      | none => rw [hfind] at h1; cases h1
      | some qz =>
        rw [hfind] at h1
        unfold studentQuestionDocsQuizPy at h1
        rw [List.mem_map] at h1
        obtain ⟨q, hq, rfl⟩ := h1
        exact sanitized_no_answers _
  · simp only [studentListingDocsSQ, List.mem_flatten] at h
    obtain ⟨l, hl, hdl⟩ := h
    rw [List.mem_map] at hl
    obtain ⟨p, hp, rfl⟩ := hl
    rw [(List.mergeSort_perm _ _).mem_iff] at hdl
    rw [List.mem_map] at hdl
    obtain ⟨iq, hiq, rfl⟩ := hdl
    exact studentQuestionDocSQ_no_answers _ _

/-- Witness for C1 at a concrete store: the question object served for
`mcQuiz` carries neither key. -/
theorem c1_student_views_sanitized_witness :
    c1doc ∈ studentFacingQuestionDocs mcStore (fun _ => true) (fun _ => true)
      (fun _ => "x") 0
    ∧ c1doc.get? "correct_answer" = none
    ∧ c1doc.get? "explanation" = none := by
  have hmem : c1doc ∈ studentFacingQuestionDocs mcStore (fun _ => true)
      (fun _ => true) (fun _ => "x") 0 := by decide
  have h := c1_student_views_sanitized mcStore (fun _ => true) (fun _ => true)
    (fun _ => "x") 0 c1doc hmem
  exact ⟨hmem, h.1, h.2⟩

/-- Counterexample to claim C2 as stated: `submit_quiz` in
`app/routes/quiz.py` marks the multiple-choice answer `" 4"` correct
against the stored `"4"` (the submission is stripped before the "exact"
comparison), while the claim's rule — exact string equality of the
submitted answer — says it is incorrect. -/
theorem c2_grading_rule_counterexample :
    submitQuiz c2inp 5 mcStore = .ok (c2out.1, c2out.2.1, c2out.2.2)
    ∧ (mcQuiz.questions.map (fun q => (q.question_type, q.correct_answer)))
        = [("multiple_choice", "4")]
    ∧ ((c2inp.answers.getD []).map (fun a => (a.question_id, a.answer)))
        = [("0", " 4")]
    ∧ ((c2out.2.2).question_results.map (fun q => q.is_correct)) = [true]
    ∧ gradingSpecC2 "multiple_choice" " 4" "4" = false :=
  ⟨rfl, by decide, by decide, by decide, by decide⟩

/-- Claim C2 as amended: `submit_quiz` (`quiz.py`) first strips the
submitted answer and then applies the claim's per-type rule to the
stripped submission; `submit_quiz_attempt` (`studentquiz.py`) ignores the
question type entirely and grades every answer like a stripped, exact
(case-sensitive) multiple-choice comparison of both sides. -/
theorem c2_grading_rule_amended (qtype submitted correct : String) :
    checkAnswerQuiz qtype submitted correct
      = gradingSpecC2 qtype (pyStrip submitted) correct
    ∧ checkAnswerStudent submitted correct
      = gradingSpecC2 "multiple_choice" (pyStrip submitted) (pyStrip correct) :=
  ⟨rfl, rfl⟩

/-- Counterexample to claim C3 as stated: `submit_quiz_attempt` in
`app/routes/studentquiz.py` grades a quiz whose status is `draft` and
persists a Result record. -/
theorem c3_unpublished_submit_counterexample :
    draftQuiz.status = "draft"
    ∧ submitQuizAttempt c3inp 5 draftStore
        = .ok (c3out.1, c3out.2.1, c3out.2.2)
    ∧ draftStore.quiz_results.length = 0
    ∧ c3out.1.quiz_results.length = 1 :=
  ⟨rfl, rfl, rfl, by decide⟩

/-- Claim C3 as amended: `submit_quiz` (`quiz.py`) fails with a not-found
error — persisting nothing — whenever the quiz is absent or unpublished,
and persists exactly one Result when a published quiz is found;
`submit_quiz_attempt` (`studentquiz.py`) fails only when the quiz id
matches no document, and grades and persists a Result for a quiz in any
status, including `draft`. -/
theorem c3_submit_availability_amended (dq : SubmitInput)
    (ds : SubmitAttemptInput) (now : Nat) (st : Store)
    (hmq : missingSubmitFields dq = [])
    (hms : missingSubmitAttemptFields ds = []) :
    (match findPublishedQuiz st (dq.quiz_id.getD 0) with
     | none => submitQuiz dq now st
         = .error (.notFound "Quiz not found or not available")
     | some _ => ∃ st' rid r, submitQuiz dq now st = .ok (st', rid, r) ∧
         st'.quiz_results.length = st.quiz_results.length + 1)
    ∧ (match findQuizById st (ds.quiz_id.getD 0) with
       | none => submitQuizAttempt ds now st
           = .error (.notFound "Quiz not found")
       | some _ => ∃ st' rid r,
           submitQuizAttempt ds now st = .ok (st', rid, r) ∧
           st'.quiz_results.length = st.quiz_results.length + 1) := by
  constructor
  · cases hf : findPublishedQuiz st (dq.quiz_id.getD 0) with
    | none =>
      unfold submitQuiz
      rw [hmq, hf]
    | some quiz =>
      refine ⟨{ st with
                quiz_results := st.quiz_results
                  ++ [(st.nextId, gradeSubmissionQuiz dq now quiz)]
                nextId := st.nextId + 1 },
              st.nextId, gradeSubmissionQuiz dq now quiz, ?_, by simp⟩
      unfold submitQuiz
      rw [hmq, hf]
  · cases hf : findQuizById st (ds.quiz_id.getD 0) with
    | none =>
      unfold submitQuizAttempt
      rw [hms, hf]
    | some quiz =>
      refine ⟨{ st with
                quiz_results := st.quiz_results
                  ++ [(st.nextId, gradeSubmissionStudent ds now quiz)]
                nextId := st.nextId + 1 },
              st.nextId, gradeSubmissionStudent ds now quiz, ?_, by simp⟩
      unfold submitQuizAttempt
      rw [hms, hf]

/-- Witness for the amended C3 on the empty store: both submit routes
report not-found there. -/
theorem c3_submit_availability_amended_witness :
    missingSubmitFields c2inp = []
    ∧ missingSubmitAttemptFields c3inp = []
    ∧ submitQuiz c2inp 9 store0
        = .error (.notFound "Quiz not found or not available")
    ∧ submitQuizAttempt c3inp 9 store0
        = .error (.notFound "Quiz not found") := by
  have h := c3_submit_availability_amended c2inp c3inp 9 store0 (by decide)
    (by decide)
  exact ⟨by decide, by decide, h.1, h.2⟩

/-- Counterexample to claim C4 as stated: the claim's boundary example
"percentage 69.999 yields C" is wrong — with inclusive lower bound 70 for
C, the code grades a raw percentage of 69.999 (scoring 69999 of 100000)
as "D". -/
theorem c4_banding_counterexample :
    submitQuiz c4inp 3 c4store = .ok (c4out.1, c4out.2.1, c4out.2.2)
    ∧ (c4out.2.2).total_score = 69999
    ∧ (c4out.2.2).max_score = 100000
    ∧ percentageOf 69999 100000 = 69999/1000
    ∧ (c4out.2.2).grade = "D" ∧ "D" ≠ "C" := by
  have h1 : (c4out.2.2).grade
      = gradeOf (percentageOf (c4out.2.2).total_score
          (c4out.2.2).max_score) := rfl
  have hts : (c4out.2.2).total_score = 69999 := by decide
  have hms : (c4out.2.2).max_score = 100000 := by decide
  refine ⟨rfl, hts, hms, by norm_num [percentageOf], ?_, by decide⟩
  rw [h1, hts, hms]
  norm_num [percentageOf, gradeOf]

/-- Claim C4 as amended: percentage is `total_score / max_score × 100`
when `max_score > 0` and 0 otherwise (no error), the letter grade is
banded with inclusive lower bounds 90/80/70/60, and the boundary samples
are 90.0 → A, 89.999 → B, 80.0 → B, 69.999 → D (not C, being below the
70 bound), 59.999 → F; every graded `submit_quiz` result's grade is the
band of its raw percentage. -/
theorem c4_percentage_banding_amended (ts ms : Int) (p : ℚ)
    (d : SubmitInput) (now : Nat) (st st' : Store) (rid : Nat)
    (r : ResultDoc) (h : submitQuiz d now st = .ok (st', rid, r)) :
    percentageOf ts ms = percentageSpec ts ms
    ∧ gradeOf p = gradeBandSpec p
    ∧ gradeOf 90 = "A" ∧ gradeOf (89999/1000) = "B" ∧ gradeOf 80 = "B"
    ∧ gradeOf (69999/1000) = "D" ∧ gradeOf (59999/1000) = "F"
    ∧ percentageOf ts 0 = 0
    ∧ r.grade = gradeOf (percentageOf r.total_score r.max_score) := by
  obtain ⟨quiz, hfind, rfl, hres⟩ := submitQuiz_ok h
  refine ⟨rfl, gradeOf_eq_bandSpec p, by norm_num [gradeOf],
    by norm_num [gradeOf], by norm_num [gradeOf], by norm_num [gradeOf],
    by norm_num [gradeOf], by simp [percentageOf], rfl⟩

/-- Witness for the amended C4 at a concrete graded submission. -/
theorem c4_percentage_banding_amended_witness :
    submitQuiz c10inp 7 c10store = .ok (c10out.1, c10out.2.1, c10out.2.2)
    ∧ percentageOf 1 2 = percentageSpec 1 2
    ∧ gradeOf 75 = gradeBandSpec 75
    ∧ gradeOf 90 = "A" ∧ gradeOf (89999/1000) = "B" ∧ gradeOf 80 = "B"
    ∧ gradeOf (69999/1000) = "D" ∧ gradeOf (59999/1000) = "F"
    ∧ percentageOf 1 0 = 0
    ∧ (c10out.2.2).grade
        = gradeOf (percentageOf (c10out.2.2).total_score
            (c10out.2.2).max_score) := by
  have h := c4_percentage_banding_amended 1 2 75 c10inp 7 c10store c10out.1
    c10out.2.1 c10out.2.2 rfl
  exact ⟨rfl, h.1, h.2.1, h.2.2.1, h.2.2.2.1, h.2.2.2.2.1, h.2.2.2.2.2.1,
    h.2.2.2.2.2.2.1, h.2.2.2.2.2.2.2.1, h.2.2.2.2.2.2.2.2⟩

/-- Counterexample to claim C5 as stated: a `create_quiz` payload carrying
`status: 'published'` yields a stored quiz whose status is `published`,
not `draft`. -/
theorem c5_create_status_counterexample :
    createQuiz "t1" c5inp 0 store0 = .ok (c5out.1, c5out.2.1, c5out.2.2)
    ∧ c5inp.status = some "published"
    ∧ (c5out.2.2).status = "published"
    ∧ "published" ≠ "draft" :=
  ⟨rfl, rfl, by decide, by decide⟩

/-- Claim C5 as amended: the status of a quiz created by `create_quiz` is
taken from the input payload, defaulting to `draft` only when the payload
carries no status — so creation can enter `published` directly and the
explicit publish transition is not the only path to `published`. -/
theorem c5_create_status_amended (u : String) (d : QuizInput) (now : Nat)
    (st st' : Store) (qid : Nat) (qz : QuizDoc)
    (h : createQuiz u d now st = .ok (st', qid, qz)) :
    qz.status = d.status.getD "draft"
    ∧ st'.quizzes = st.quizzes ++ [(st.nextId, qz)] := by
  obtain ⟨qs, tp, hbuild, rfl, hst⟩ := createQuiz_ok h
  exact ⟨rfl, hst⟩

/-- Witness for the amended C5 at the concrete `published`-status
payload. -/
theorem c5_create_status_amended_witness :
    createQuiz "t1" c5inp 0 store0 = .ok (c5out.1, c5out.2.1, c5out.2.2)
    ∧ (c5out.2.2).status = c5inp.status.getD "draft"
    ∧ c5out.1.quizzes = store0.quizzes ++ [(store0.nextId, c5out.2.2)] := by
  have h := c5_create_status_amended "t1" c5inp 0 store0 c5out.1 c5out.2.1
    c5out.2.2 rfl
  exact ⟨rfl, h.1, h.2⟩

/-- Counterexample to claim C6 as stated: `create_quiz` accepts an inline
multiple-choice question with a single option and stores it. -/
theorem c6_inline_options_counterexample :
    createQuiz "t1" c6inp 0 store0 = .ok (c6out.1, c6out.2.1, c6out.2.2)
    ∧ ((c6out.2.2).questions.map (fun q => (q.question_type, q.options)))
        = [("multiple_choice", some ["only"])]
    ∧ (["only"] : List String).length < 2
    ∧ c6out.1.quizzes.length = 1 :=
  ⟨rfl, by decide, by decide, by decide⟩

/-- Claim C6 as amended: `add_question` does enforce at least 2 options
for multiple-choice questions — fewer than 2 (or no option list) is
rejected with a validation error, and any accepted bank question stores
at least 2 — but `create_quiz` performs no such validation on inline
questions (see the counterexample). -/
theorem c6_options_validation_amended (u : String) (i : QuestionInput)
    (now : Nat) (st : Store)
    (hty : i.question_type = some "multiple_choice")
    (hm : missingQuestionFields i = [])
    (hdup : questionDuplicate st u i = none) :
    match i.options with
    | some opts =>
        if opts.length < 2 then
          addQuestion u i now st = .error (.badRequest
            "Multiple choice questions require at least 2 options")
        else
          ∃ st' qid q, addQuestion u i now st = .ok (st', qid, q) ∧
            q.options = some opts ∧ 2 ≤ opts.length
    | none =>
        addQuestion u i now st = .error (.badRequest
          "Multiple choice questions require at least 2 options") := by
  have hbeq : (i.question_type.getD "" == "multiple_choice") = true := by
    rw [hty]; rfl
  cases hopt : i.options with
  | none =>
    unfold addQuestion
    rw [hm, hdup]
    simp only [hbeq, if_pos, hopt]
  | some opts =>
    dsimp only
    by_cases hlen : opts.length < 2
    · rw [if_pos hlen]
      unfold addQuestion
      rw [hm, hdup]
      simp only [hbeq, if_pos, hopt, hlen]
    · rw [if_neg hlen]
      refine ⟨{ st with
                question_bank := st.question_bank
                  ++ [(st.nextId,
                       { mkQuestionDoc u i now with options := some opts })]
                nextId := st.nextId + 1 },
              st.nextId, { mkQuestionDoc u i now with options := some opts },
              ?_, rfl, by omega⟩
      unfold addQuestion
      rw [hm, hdup]
      simp only [hbeq, if_pos, hopt, hlen, if_neg]
      rfl

/-- Witness for the amended C6: a two-option multiple-choice payload is
accepted with its options stored. -/
theorem c6_options_validation_amended_witness :
    c6winp.question_type = some "multiple_choice"
    ∧ missingQuestionFields c6winp = []
    ∧ questionDuplicate store0 "t1" c6winp = none
    ∧ (∃ st' qid q, addQuestion "t1" c6winp 0 store0 = .ok (st', qid, q) ∧
        q.options = some ["a", "b"]
          ∧ 2 ≤ (["a", "b"] : List String).length) := by
  have h := c6_options_validation_amended "t1" c6winp 0 store0 rfl (by decide)
    (by decide)
  exact ⟨rfl, by decide, by decide, h⟩

/-- Claim C7: every quiz successfully created by `create_quiz` stores a
`total_points` equal to the sum of the points of its embedded questions. -/
theorem c7_total_points_sum (u : String) (d : QuizInput) (now : Nat)
    (st st' : Store) (qid : Nat) (qz : QuizDoc)
    (h : createQuiz u d now st = .ok (st', qid, qz)) :
    qz.total_points = (qz.questions.map (fun q => q.points)).sum := by
  obtain ⟨qs, tp, hbuild, rfl, hst⟩ := createQuiz_ok h
  exact buildQuizQuestions_sum st u _ _ _ _ _ hbuild

/-- Witness for C7 at a concrete created quiz. -/
theorem c7_total_points_sum_witness :
    createQuiz "t1" c6inp 0 store0 = .ok (c6out.1, c6out.2.1, c6out.2.2)
    ∧ (c6out.2.2).total_points
        = ((c6out.2.2).questions.map (fun q => q.points)).sum :=
  ⟨rfl, c7_total_points_sum "t1" c6inp 0 store0 c6out.1 c6out.2.1
    c6out.2.2 rfl⟩

/-- Claim C8: after a successful `add_question`, a second call by the same
caller whose prompt (after stripping) and subject match fails with a
conflict error, and the store then contains exactly one question with
that prompt, subject and creator. -/
theorem c8_duplicate_prevention (u : String) (i1 i2 : QuestionInput)
    (n1 n2 : Nat) (st st1 : Store) (qid : Nat) (q : QuestionDoc)
    (h1 : addQuestion u i1 n1 st = .ok (st1, qid, q))
    (ht : pyStrip (i2.question_text.getD "")
      = pyStrip (i1.question_text.getD ""))
    (hs : i2.subject.getD "" = i1.subject.getD "")
    (hm2 : missingQuestionFields i2 = []) :
    addQuestion u i2 n2 st1
      = .error (.conflict "This question already exists in your question bank")
    ∧ countQuestions st1 u q.question_text q.subject = 1 := by
  obtain ⟨hm1, hdup1, hqt, hqs, hqu, hbank⟩ := addQuestion_ok h1
  have hnone : ∀ x ∈ st.question_bank,
      ¬ (x.2.question_text == pyStrip (i1.question_text.getD "")
          && x.2.subject == i1.subject.getD ""
          && x.2.created_by == u) = true := by
    intro x hx
    have := List.find?_eq_none.mp hdup1
    exact this x hx
  have hdup2 : questionDuplicate st1 u i2 = some (st.nextId, q) := by
    unfold questionDuplicate
    rw [hbank, ht, hs, List.find?_append]
    rw [List.find?_eq_none.mpr hnone]
    simp only [Option.none_or]
    rw [List.find?_cons_of_pos]
    simp [hqt, hqs, hqu]
  constructor
  · unfold addQuestion
    rw [hm2, hdup2]
  · unfold countQuestions
    rw [hbank, List.filter_append]
    have hfil : st.question_bank.filter (fun p =>
        p.2.question_text == q.question_text
          && p.2.subject == q.subject && p.2.created_by == u) = [] := by
      rw [List.filter_eq_nil_iff]
      intro x hx
      rw [hqt, hqs]
      exact hnone x hx
    rw [hfil]
    simp [hqt, hqs, hqu]

/-- Witness for C8: adding the same question twice on the empty store. -/
theorem c8_duplicate_prevention_witness :
    addQuestion "t1" c8inp 0 store0 = .ok (c8out.1, c8out.2.1, c8out.2.2)
    ∧ pyStrip (c8inp.question_text.getD "")
        = pyStrip (c8inp.question_text.getD "")
    ∧ missingQuestionFields c8inp = []
    ∧ addQuestion "t1" c8inp 1 c8out.1
        = .error (.conflict "This question already exists in your question bank")
    ∧ countQuestions c8out.1 "t1" (c8out.2.2).question_text
        (c8out.2.2).subject = 1 := by
  have h := c8_duplicate_prevention "t1" c8inp c8inp 0 1 store0 c8out.1
    c8out.2.1 c8out.2.2 rfl rfl rfl (by decide)
  exact ⟨rfl, rfl, by decide, h.1, h.2⟩

/-- Claim C9: `save_quiz_attempt` with an existing unsubmitted, unexpired
attempt for (quiz, student) updates that attempt's answers, current
question, time spent and update timestamp in place — the attempt count is
unchanged and the expiry (and creation time) is not extended — while with
no such attempt it appends a fresh attempt whose expiry is 24 hours
(86400 seconds) after creation. -/
theorem c9_save_progress_resume (d : SaveAttemptInput) (now : Nat)
    (st : Store) (hm : missingSaveAttemptFields d = []) :
    match findActiveAttempt st (d.quiz_id.getD 0) (d.student_id.getD "") now with
    | some (aid, _) =>
        ∃ st', saveQuizAttempt d now st = .ok (st', aid, true) ∧
          st'.quiz_attempts.length = st.quiz_attempts.length ∧
          findAttemptById st' aid = (findAttemptById st aid).map (fun b =>
            { b with
              answers := d.answers.getD []
              current_question := d.current_question.getD 0
              time_spent := d.time_spent.getD 0
              updated_at := now }) ∧
          (findAttemptById st' aid).map (fun b => b.expires_at)
            = (findAttemptById st aid).map (fun b => b.expires_at)
    | none =>
        ∃ st', saveQuizAttempt d now st = .ok (st', st.nextId, false) ∧
          st'.quiz_attempts
            = st.quiz_attempts ++ [(st.nextId, mkAttemptDoc d now)] ∧
          (mkAttemptDoc d now).expires_at = now + 86400 := by
  cases hfa : findActiveAttempt st (d.quiz_id.getD 0) (d.student_id.getD "") now with
  | none =>
    refine ⟨{ st with
              quiz_attempts := st.quiz_attempts
                ++ [(st.nextId, mkAttemptDoc d now)]
              nextId := st.nextId + 1 }, ?_, rfl, rfl⟩
    unfold saveQuizAttempt
    rw [hm]
    simp only [hfa]
  | some pa =>
    obtain ⟨aid, a⟩ := pa
    refine ⟨{ st with
              quiz_attempts := updateFirst (fun p => p.1 == aid)
                (fun p => (p.1, { p.2 with
                  answers := d.answers.getD []
                  current_question := d.current_question.getD 0
                  time_spent := d.time_spent.getD 0
                  updated_at := now }))
                st.quiz_attempts }, ?_, ?_, ?_, ?_⟩
    · unfold saveQuizAttempt
      rw [hm]
      simp only [hfa]
    · exact updateFirst_length _ _ _
    · unfold findAttemptById
      rw [attemptsUpdateFind]
      cases st.quiz_attempts.find? (fun p => p.1 == aid) <;> rfl
    · unfold findAttemptById
      rw [attemptsUpdateFind]
      cases st.quiz_attempts.find? (fun p => p.1 == aid) <;> rfl

/-- Witness for C9 on the empty store: the first save creates an attempt
expiring 24 hours later. -/
theorem c9_save_progress_resume_witness :
    missingSaveAttemptFields c9inp = []
    ∧ (∃ st', saveQuizAttempt c9inp 0 store0
          = .ok (st', store0.nextId, false) ∧
        st'.quiz_attempts
          = store0.quiz_attempts ++ [(store0.nextId, mkAttemptDoc c9inp 0)] ∧
        (mkAttemptDoc c9inp 0).expires_at = 0 + 86400) := by
  have h := c9_save_progress_resume c9inp 0 store0 (by decide)
  exact ⟨by decide, h⟩

/-- Claim C10: every `submit_quiz` result's grade is banded from the
unrounded percentage while the stored percentage is rounded to two
decimals, and every raw percentage in [89.995, 90) rounds to a stored
90.0 with grade "B" — a stored percentage whose own band ("A") differs
from the stored grade. -/
theorem c10_round_vs_band (p : ℚ) (d : SubmitInput) (now : Nat)
    (st st' : Store) (rid : Nat) (r : ResultDoc)
    (hp1 : 89995/1000 ≤ p) (hp2 : p < 90)
    (h : submitQuiz d now st = .ok (st', rid, r)) :
    r.grade = gradeOf (percentageOf r.total_score r.max_score)
    ∧ r.percentage = round2 (percentageOf r.total_score r.max_score)
    ∧ round2 p = 90 ∧ gradeOf p = "B" ∧ gradeOf (round2 p) = "A"
    ∧ gradeOf (round2 p) ≠ gradeOf p := by
  obtain ⟨quiz, hfind, rfl, hres⟩ := submitQuiz_ok h
  have h90 : round2 p = 90 := round2_up p hp1 hp2
  have hB : gradeOf p = "B" := by
    unfold gradeOf
    rw [if_neg (not_le.mpr hp2), if_pos (by linarith)]
  have hA : gradeOf (round2 p) = "A" := by
    rw [h90]
    norm_num [gradeOf]
  exact ⟨rfl, rfl, h90, hB, hA, by rw [hA, hB]; decide⟩

/-- Witness for C10: the concrete 89999-of-100000 submission stores
percentage 90.0 with grade "B". -/
theorem c10_round_vs_band_witness :
    (89995/1000 : ℚ) ≤ 89999/1000 ∧ (89999/1000 : ℚ) < 90
    ∧ submitQuiz c10inp 7 c10store = .ok (c10out.1, c10out.2.1, c10out.2.2)
    ∧ (c10out.2.2).total_score = 89999
    ∧ (c10out.2.2).max_score = 100000
    ∧ percentageOf 89999 100000 = 89999/1000
    ∧ round2 (89999/1000) = 90 ∧ gradeOf (89999/1000) = "B"
    ∧ gradeOf (round2 (89999/1000)) = "A"
    ∧ (c10out.2.2).percentage = 90 ∧ (c10out.2.2).grade = "B" := by
  have h := c10_round_vs_band (89999/1000) c10inp 7 c10store c10out.1
    c10out.2.1 c10out.2.2 (by norm_num) (by norm_num) rfl
  have hts : (c10out.2.2).total_score = 89999 := by decide
  have hms : (c10out.2.2).max_score = 100000 := by decide
  have hper : percentageOf 89999 100000 = 89999/1000 := by
    norm_num [percentageOf]
  refine ⟨by norm_num, by norm_num, rfl, hts, hms, hper, h.2.2.1, h.2.2.2.1,
    h.2.2.2.2.1, ?_, ?_⟩
  · rw [h.2.1, hts, hms, hper, h.2.2.1]
  · rw [h.1, hts, hms, hper, h.2.2.2.1]
